import Mathlib

/-!
# Verification of the arbitrage-bot validation & risk pipeline

Shallow embedding of the opportunity-validation and circuit-breaker code of
the crypto-arbitrage-bot repository, together with proofs of the stated
properties.

Conventions used throughout:
* JavaScript `BigInt` values (wei amounts, reserves, timestamps in ms) are
  embedded as `Int` or `Nat`; `BigInt` division truncates toward zero, which
  on the non-negative operands occurring here coincides with `Nat` division.
* JavaScript floating-point arithmetic on USD/percentage values is embedded
  as exact rational arithmetic (`ℚ`).
* Template strings that interpolate numeric values are embedded as inductive
  `reason` values carrying exactly the interpolated data; template strings
  that interpolate only strings are embedded as actual `String`s.
* Sub-validator calls that perform I/O (RPC quotes, price feeds) are
  embedded by passing their results in explicitly: a throwing call is an
  `Except.error`, a returned verdict an `Except.ok`.
-/

/-! ## Circuit breaker (src/risk/CircuitBreakerManager.js) -/

namespace CircuitBreaker

/-- Configuration values loaded in the constructor of
`CircuitBreakerManager` (`circuitBreakers.*`). -/
structure Config where
  enabled : Bool
  maxConsecutiveFailures : Nat
  maxDailyLoss : Int
  cooldownPeriodMinutes : Int
deriving Repr, DecidableEq

/-- One entry of `state.executionHistory` as pushed by `recordExecution`. -/
structure Execution where
  timestamp : Int
  profit : Int
  gasUsed : Int
  netProfit : Int
  tokens : String
deriving Repr, DecidableEq

/-- The reason strings passed to `tripCircuitBreaker`. -/
inductive TripReason where
  | maxConsecutiveFailuresReached
  | dailyLossThresholdExceeded
  | excessivePriceDeviation
  | insufficientLiquidity
deriving Repr, DecidableEq

/-- One entry of `state.breaches` as pushed by `tripCircuitBreaker`. -/
structure Breach where
  timestamp : Int
  reason : TripReason
  cooldownUntil : Int
deriving Repr, DecidableEq

/-- The mutable `this.state` object of `CircuitBreakerManager`. -/
structure State where
  active : Bool
  consecutiveFailures : Nat
  dailyLoss : Int
  lastResetTime : Int
  cooldownUntil : Int
  executionHistory : List Execution
  breaches : List Breach
deriving Repr, DecidableEq

/-- The state initialised in the constructor (`lastResetTime: Date.now()`). -/
def initialState (now : Int) : State :=
  { active := false
    consecutiveFailures := 0
    dailyLoss := 0
    lastResetTime := now
    cooldownUntil := 0
    executionHistory := []
    breaches := [] }

/-- `CircuitBreakerManager.isTripped()`.  `Date.now()` is passed in as
`now`; the call both returns the boolean and (lazily) updates the state. -/
def isTripped (cfg : Config) (st : State) (now : Int) : Bool × State :=
  if cfg.enabled = false then (false, st)
  else if st.active = true ∧ now < st.cooldownUntil then (true, st)
  else if st.active = true then (false, { st with active := false })
  else (false, st)

/-- `CircuitBreakerManager.tripCircuitBreaker(reason, details)`. -/
def tripCircuitBreaker (cfg : Config) (st : State) (now : Int)
    (reason : TripReason) : State :=
  if cfg.enabled = false then st
  else
    let cooldownUntil := now + cfg.cooldownPeriodMinutes * 60 * 1000
    { st with
      active := true
      cooldownUntil := cooldownUntil
      breaches := st.breaches ++ [⟨now, reason, cooldownUntil⟩] }

/-- `CircuitBreakerManager.recordExecution(profit, gasUsed, tokens)` with
`Date.now()` passed in as `now`. -/
def recordExecution (cfg : Config) (st : State) (now : Int)
    (profit gasUsed : Int) (tokens : String) : State :=
  if cfg.enabled = false then st
  else
    let netProfit := profit - gasUsed
    let st1 := { st with
      executionHistory :=
        st.executionHistory ++
          [(⟨now, profit, gasUsed, netProfit, tokens⟩ : Execution)] }
    let st2 :=
      if netProfit > 0 then { st1 with consecutiveFailures := 0 }
      else
        let absoluteLoss := if netProfit < 0 then -netProfit else netProfit
        let st1a := { st1 with
          dailyLoss := st1.dailyLoss + absoluteLoss
          consecutiveFailures := st1.consecutiveFailures + 1 }
        if st1a.consecutiveFailures ≥ cfg.maxConsecutiveFailures then
          tripCircuitBreaker cfg st1a now TripReason.maxConsecutiveFailuresReached
        else st1a
    if st2.dailyLoss > cfg.maxDailyLoss then
      tripCircuitBreaker cfg st2 now TripReason.dailyLossThresholdExceeded
    else st2

/-- `CircuitBreakerManager.resetDailyStats()` (the daily-rollover body). -/
def resetDailyStats (st : State) (now : Int) : State :=
  { st with
    lastResetTime := now
    dailyLoss := 0
    executionHistory := []
    breaches := st.breaches.drop (st.breaches.length - 10) }


/-- A recorded execution outcome: the arguments of one
`recordExecution(profit, gasUsed, tokens)` call and its `Date.now()`. -/
structure Trade where
  time : Int
  profit : Int
  gasUsed : Int
  tokens : String
deriving Repr, DecidableEq

/-- Record a sequence of execution outcomes in order. -/
def recordAll (cfg : Config) (st : State) (L : List Trade) : State :=
  L.foldl (fun s t => recordExecution cfg s t.time t.profit t.gasUsed t.tokens) st

end CircuitBreaker

/-! ## Price plausibility validator (src/utils/PriceValidator.js) -/

namespace PriceValidator

/-- The `stablecoins` list of `getDeviationThreshold`. -/
def stablecoins : List String := ["USDC", "USDT", "DAI", "BUSD", "TUSD", "FRAX"]

/-- The `mainstream` list of `getDeviationThreshold`. -/
def mainstream : List String := ["WETH", "WBTC", "WBNB", "MATIC"]

/-- The `defi` list of `getDeviationThreshold`. -/
def defi : List String := ["AAVE", "UNI", "SUSHI", "COMP", "MKR", "CRV", "YFI"]

/-- `PriceValidator.getDeviationThreshold(tokenASymbol, tokenBSymbol)`:
the early-return chain of the source is embedded as a nested
if-then-else with the same conditions in the same order. -/
def getDeviationThreshold (tokenASymbol tokenBSymbol : String) : ℚ :=
  if tokenASymbol ∈ stablecoins ∧ tokenBSymbol ∈ stablecoins then 2/10
  else if tokenASymbol ∈ mainstream ∧ tokenBSymbol ∈ mainstream then 5/10
  else if (tokenASymbol ∈ stablecoins ∧ tokenBSymbol ∈ mainstream) ∨
      (tokenBSymbol ∈ stablecoins ∧ tokenASymbol ∈ mainstream) then 75/100
  else if (tokenASymbol ∈ defi ∨ tokenBSymbol ∈ defi) ∧
      (tokenASymbol ∈ mainstream ∨ tokenBSymbol ∈ mainstream) then 125/100
  else 1

/-- A `{isValid, reason}` object returned by one of the three secondary
checks (`checkAgainstRecentSpreads`, `compareWithMarketPrices`,
`checkForAttackPatterns`).  These checks read I/O-backed state (spread
history, market-price cache, clock), so their results are passed to the
orchestrating function explicitly. -/
structure SubCheck where
  isValid : Bool
  reason : String
deriving Repr, DecidableEq

/-- The `reason` template strings of `validatePriceDifference`, carrying
exactly their interpolated values. -/
inductive PDReason where
  | fromSubCheck (r : String)
  | highSpreadValidated (spread : ℚ)
  | withinThreshold (spread threshold : ℚ)
deriving Repr, DecidableEq

/-- The `warning` template string of the high-spread-but-validated branch,
carrying its interpolated threshold. -/
inductive PDWarning where
  | exceedsThreshold (threshold : ℚ)
deriving Repr, DecidableEq

/-- Result shape of `validatePriceDifference`: the `warning` property is
only present (`some`) on the high-spread-but-validated branch. -/
structure PriceDiffResult where
  isValid : Bool
  reason : PDReason
  warning : Option PDWarning
deriving Repr, DecidableEq

/-- `PriceValidator.validatePriceDifference(opportunity)`, with the results
of the three I/O-backed secondary checks supplied as arguments. -/
def validatePriceDifference (recentSpreadsCheck marketPriceCheck
    attackPatternCheck : SubCheck) (tokenA tokenB : String)
    (spreadPercentage : ℚ) : PriceDiffResult :=
  let threshold := getDeviationThreshold tokenA tokenB
  if spreadPercentage > threshold then
    if recentSpreadsCheck.isValid = false then
      ⟨false, PDReason.fromSubCheck recentSpreadsCheck.reason, none⟩
    else if marketPriceCheck.isValid = false then
      ⟨false, PDReason.fromSubCheck marketPriceCheck.reason, none⟩
    else if attackPatternCheck.isValid = false then
      ⟨false, PDReason.fromSubCheck attackPatternCheck.reason, none⟩
    else
      ⟨true, PDReason.highSpreadValidated spreadPercentage,
        some (PDWarning.exceedsThreshold threshold)⟩
  else
    ⟨true, PDReason.withinThreshold spreadPercentage threshold, none⟩

/-- `details` of a `PriceValidator.validateOpportunity` verdict. -/
inductive PVDetails where
  | rejected (reason : PDReason)
  | accepted (threshold spreadPercentage : ℚ) (warning : Option PDWarning)
deriving Repr, DecidableEq

/-- A `{isValid, details}` verdict of `PriceValidator.validateOpportunity`. -/
structure PVVerdict where
  isValid : Bool
  details : PVDetails
deriving Repr, DecidableEq

/-- `PriceValidator.validateOpportunity(opportunity)` (the
`warning: priceCheck.warning || null` field maps absent to `none`). -/
def validateOpportunity (recentSpreadsCheck marketPriceCheck
    attackPatternCheck : SubCheck) (tokenA tokenB : String)
    (spreadPercentage : ℚ) : PVVerdict :=
  let priceCheck := validatePriceDifference recentSpreadsCheck marketPriceCheck
    attackPatternCheck tokenA tokenB spreadPercentage
  if priceCheck.isValid = false then
    ⟨false, PVDetails.rejected priceCheck.reason⟩
  else
    ⟨true, PVDetails.accepted (getDeviationThreshold tokenA tokenB)
      spreadPercentage priceCheck.warning⟩

end PriceValidator

/-! ## Liquidity depth validator (src/utils/LiquidityValidator.js) -/

namespace LiquidityValidator

/-- The `stablecoins` list of `LiquidityValidator.validatePriceDifference`. -/
def stablecoins : List String :=
  ["USDC", "USDT", "DAI", "BUSD", "TUSD", "USDN", "FRAX"]

/-- The inline `['WETH', 'WBTC']` major-token list of
`LiquidityValidator.validatePriceDifference`. -/
def majors : List String := ["WETH", "WBTC"]

/-- The `maxAllowedDeviation` selection of
`LiquidityValidator.validatePriceDifference`: default 1.5, stablecoin pair
0.25, otherwise 0.75 when either token is WETH or WBTC. -/
def maxAllowedDeviation (tokenASymbol tokenBSymbol : String) : ℚ :=
  if tokenASymbol ∈ stablecoins ∧ tokenBSymbol ∈ stablecoins then 1/4
  else if tokenASymbol ∈ majors ∨ tokenBSymbol ∈ majors then 3/4
  else 3/2

/-- Result of `LiquidityValidator.validatePriceDifference` (its failure
`reason` string interpolates `deviation` and the chosen threshold). -/
structure PriceDiffCheck where
  isValid : Bool
  deviation : ℚ
deriving Repr, DecidableEq

/-- `LiquidityValidator.validatePriceDifference(tokenA, tokenB, amountIn,
buyAmount, sellAmount)`.  `BigInt` divisions are `Nat` divisions. -/
def validatePriceDifference (tokenASymbol tokenBSymbol : String)
    (amountIn buyAmount sellAmount : ℕ) : PriceDiffCheck :=
  let buyRate : ℚ := ((buyAmount * 10000 / amountIn : ℕ) : ℚ) / 10000
  let sellRate : ℚ := ((sellAmount * 10000 / buyAmount : ℕ) : ℚ) / 10000
  let deviation : ℚ := |(sellRate * buyRate - 1) * 100|
  if deviation > maxAllowedDeviation tokenASymbol tokenBSymbol then
    ⟨false, deviation⟩
  else
    ⟨true, deviation⟩

/-- JavaScript `x || d` on an optional numeric configuration value: absent
or zero (falsy) falls back to the default. -/
def jsOr (v : Option ℚ) (d : ℚ) : ℚ :=
  match v with
  | none => d
  | some x => if x = 0 then d else x

/-- The recognised fields of the `options` argument of
`checkDexLiquidity`. -/
structure DexOptions where
  maxReserveRatio : Option ℚ
  maxPriceImpact : Option ℚ
  slippageCheck : Bool
  slippageTolerance : Option ℚ
deriving Repr, DecidableEq

/-- An absent `options` argument (`{}`). -/
def emptyOptions : DexOptions := ⟨none, none, false, none⟩

/-- `reserveRatio = Number(amountIn * 10000n / reserves.reserveIn) / 100`. -/
def reserveRatioPct (amountIn reserveIn : ℕ) : ℚ :=
  ((amountIn * 10000 / reserveIn : ℕ) : ℚ) / 100

/-- The constant-product output of the non-V3 branch:
`amountInWithFee = amountIn * 997n`;
`amountInWithFee * reserveOut / (reserveIn * 1000n + amountInWithFee)`. -/
def expectedOutputV2 (amountIn reserveIn reserveOut : ℕ) : ℕ :=
  amountIn * 997 * reserveOut / (reserveIn * 1000 + amountIn * 997)

/-- `spotPrice = reserveOut * 10000n / reserveIn` (also the `swapRate`
computed by `getDexReserves` for V2-style pools). -/
def spotPriceScaled (reserveIn reserveOut : ℕ) : ℕ :=
  reserveOut * 10000 / reserveIn

/-- `executionPrice = expectedOutput * 10000n / amountIn`. -/
def executionPriceScaled (amountIn expectedOutput : ℕ) : ℕ :=
  expectedOutput * 10000 / amountIn

/-- `priceImpact = Number((spotPrice - executionPrice) * 10000n / spotPrice)
/ 100` for the constant-product branch.  The `BigInt` subtraction never
underflows here (the floored execution price cannot exceed the floored spot
price), so `Nat` subtraction is exact. -/
def priceImpactPct (amountIn reserveIn reserveOut : ℕ) : ℚ :=
  (((spotPriceScaled reserveIn reserveOut -
      executionPriceScaled amountIn (expectedOutputV2 amountIn reserveIn reserveOut)) *
      10000 / spotPriceScaled reserveIn reserveOut : ℕ) : ℚ) / 100

/-- Outcome of `checkDexLiquidity`, one constructor per return object,
carrying the numeric fields of that object. -/
inductive DexCheck where
  | invalidRatio (reserveRatio : ℚ)
  | invalidSlippage (expectedOutput : ℕ) (minAcceptableOutput : ℤ) (slippage : ℚ)
  | invalidImpact (priceImpact : ℚ)
  | valid (expectedOutput : ℕ) (reserveIn reserveOut : ℕ)
      (reserveRatio priceImpact : ℚ)
deriving Repr, DecidableEq

/-- The `isValid` field of a `checkDexLiquidity` result. -/
def DexCheck.isValid : DexCheck → Bool
  | .valid _ _ _ _ _ => true
  | _ => false

/-- `LiquidityValidator.checkDexLiquidity(dexName, tokenIn, tokenOut,
amountIn, options)` for a non-V3 pool whose `getDexReserves` call
succeeded with the given reserves (the reserve-fetch itself is I/O and is
supplied).  `cfgSlippageTolerance` is `this.config.slippageTolerance`. -/
def checkDexLiquidity (reserveIn reserveOut amountIn : ℕ)
    (options : DexOptions) (cfgSlippageTolerance : Option ℚ) : DexCheck :=
  let reserveRatio := reserveRatioPct amountIn reserveIn
  if reserveRatio > jsOr options.maxReserveRatio 5 then
    DexCheck.invalidRatio reserveRatio
  else
    let expectedOutput := expectedOutputV2 amountIn reserveIn reserveOut
    let priceImpact := priceImpactPct amountIn reserveIn reserveOut
    let slippageTolerance :=
      jsOr options.slippageTolerance (jsOr cfgSlippageTolerance (1/2))
    let minAcceptableOutput : ℤ :=
      Int.tdiv ((amountIn : ℤ) * (spotPriceScaled reserveIn reserveOut : ℤ) *
        (100 - Int.floor (slippageTolerance * 100))) 10000
    if options.slippageCheck = true ∧ (expectedOutput : ℤ) < minAcceptableOutput then
      DexCheck.invalidSlippage expectedOutput minAcceptableOutput slippageTolerance
    else if priceImpact > jsOr options.maxPriceImpact 3 then
      DexCheck.invalidImpact priceImpact
    else
      DexCheck.valid expectedOutput reserveIn reserveOut reserveRatio priceImpact

end LiquidityValidator

/-! ## Validation manager (src/utils/ValidationManager.js) -/

namespace ValidationMgr

open LiquidityValidator (jsOr)

/-- One entry of `config.tokens`. -/
structure TokenInfo where
  symbol : String
  decimals : ℕ
deriving Repr, DecidableEq

/-- The configuration fields consumed by `ValidationManager`. -/
structure VMConfig where
  tokens : List TokenInfo
  aaveFee : Option ℚ
  minProfitUsd : Option ℚ
  maxGasPrice : Option ℚ
  simulateBeforeExecution : Bool
deriving Repr, DecidableEq

/-- `ValidationManager.getTokenPriceUsd(symbol)`: the placeholder price
table, `null` for unknown symbols. -/
def getTokenPriceUsd (symbol : String) : Option ℚ :=
  if symbol = "WETH" then some 2500
  else if symbol = "WBTC" then some 40000
  else if symbol = "USDC" then some 1
  else if symbol = "USDT" then some 1
  else if symbol = "DAI" then some 1
  else none

/-- `ValidationManager.getEthPriceUsd()`: the placeholder constant. -/
def getEthPriceUsd : Option ℚ := some 2500

/-- `parseUnits(amountIn.toString(), decimals)` for a decimal amount that
`parseUnits` accepts (at most `decimals` fractional digits, on which the
floor is exact). -/
def parseUnitsQ (amountIn : ℚ) (decimals : ℕ) : ℤ :=
  ⌊amountIn * 10 ^ decimals⌋

/-- The flash-loan fee of `analyzeProfitability`:
`amount * BigInt(Math.floor(flashLoanFeePercent * 100)) / 10000n`
(`BigInt` division truncates toward zero). -/
def flashLoanFeeOf (feePercent : ℚ) (amount : ℤ) : ℤ :=
  Int.tdiv (amount * Int.floor (feePercent * 100)) 10000

/-- `gasCostUsd` of `analyzeProfitability`: wei cost of 500000 gas units,
formatted to ether and multiplied by the ETH price. -/
def gasCostUsdOf (gasPrice : ℤ) (ethPriceUsd : ℚ) : ℚ :=
  ((gasPrice * 500000 : ℤ) : ℚ) / 10 ^ 18 * ethPriceUsd

/-- `flashLoanFeeUsd` of `analyzeProfitability`. -/
def flashLoanFeeUsdOf (cfg : VMConfig) (tokenInfo : TokenInfo)
    (amountIn tokenPriceUsd : ℚ) : ℚ :=
  ((flashLoanFeeOf (jsOr cfg.aaveFee (9/100))
      (parseUnitsQ amountIn tokenInfo.decimals) : ℤ) : ℚ) /
    10 ^ tokenInfo.decimals * tokenPriceUsd

/-- `netProfitUsd = profitUsd - flashLoanFeeUsd - gasCostUsd`. -/
def netProfitUsdOf (cfg : VMConfig) (tokenInfo : TokenInfo)
    (amountIn profitUsd : ℚ) (gasPrice : ℤ) (tokenPriceUsd ethPriceUsd : ℚ) : ℚ :=
  profitUsd - flashLoanFeeUsdOf cfg tokenInfo amountIn tokenPriceUsd -
    gasCostUsdOf gasPrice ethPriceUsd

/-- `profitToGasRatio = gasCostUsd > 0 ? netProfitUsd / gasCostUsd : 0`. -/
def profitToGasRatioOf (netProfitUsd gasCostUsd : ℚ) : ℚ :=
  if gasCostUsd > 0 then netProfitUsd / gasCostUsd else 0

/-- The `reason` templates of `analyzeProfitability`, carrying their
interpolated values. -/
inductive ProfitReason where
  | tokenInfoNotFound (tokenA : String)
  | couldNotGetTokenPrice (tokenA : String)
  | couldNotGetEthPrice
  | netProfitBelowMinimum (netProfitUsd minProfitUsd : ℚ)
  | ratioBelowMultiplier (profitToGasRatio minProfitMultiplier : ℚ)
deriving Repr, DecidableEq

/-- A `{isValid, details}` result of `analyzeProfitability`: early lookups
reject with only a reason; the two profitability gates reject with the full
numeric breakdown; success carries the breakdown plus both prices. -/
inductive ProfitAnalysis where
  | rejectedEarly (reason : ProfitReason)
  | rejected (reason : ProfitReason)
      (profitUsd flashLoanFeeUsd gasCostUsd netProfitUsd profitToGasRatio : ℚ)
  | valid (profitUsd flashLoanFeeUsd gasCostUsd netProfitUsd
      profitToGasRatio ethPriceUsd tokenPriceUsd : ℚ)
deriving Repr, DecidableEq

/-- The `isValid` field of an `analyzeProfitability` result. -/
def ProfitAnalysis.isValid : ProfitAnalysis → Bool
  | .valid _ _ _ _ _ _ _ => true
  | _ => false

/-- `ValidationManager.analyzeProfitability(opportunity, gasPrice)`. -/
def analyzeProfitability (cfg : VMConfig) (minProfitMultiplier : ℚ)
    (tokenA : String) (amountIn profitUsd : ℚ) (gasPrice : ℤ) : ProfitAnalysis :=
  match cfg.tokens.find? (fun t => t.symbol == tokenA) with
  | none => ProfitAnalysis.rejectedEarly (ProfitReason.tokenInfoNotFound tokenA)
  | some tokenInfo =>
    match getTokenPriceUsd tokenA with
    | none => ProfitAnalysis.rejectedEarly (ProfitReason.couldNotGetTokenPrice tokenA)
    | some tokenPriceUsd =>
      let flashLoanFeeUsd := flashLoanFeeUsdOf cfg tokenInfo amountIn tokenPriceUsd
      match getEthPriceUsd with
      | none => ProfitAnalysis.rejectedEarly ProfitReason.couldNotGetEthPrice
      | some ethPriceUsd =>
        let gasCostUsd := gasCostUsdOf gasPrice ethPriceUsd
        let netProfitUsd := profitUsd - flashLoanFeeUsd - gasCostUsd
        let profitToGasRatio := profitToGasRatioOf netProfitUsd gasCostUsd
        let minProfitUsd := jsOr cfg.minProfitUsd 10
        if netProfitUsd ≤ minProfitUsd then
          ProfitAnalysis.rejected
            (ProfitReason.netProfitBelowMinimum netProfitUsd minProfitUsd)
            profitUsd flashLoanFeeUsd gasCostUsd netProfitUsd profitToGasRatio
        else if profitToGasRatio ≥ minProfitMultiplier then
          ProfitAnalysis.valid profitUsd flashLoanFeeUsd gasCostUsd netProfitUsd
            profitToGasRatio ethPriceUsd tokenPriceUsd
        else
          ProfitAnalysis.rejected
            (ProfitReason.ratioBelowMultiplier profitToGasRatio minProfitMultiplier)
            profitUsd flashLoanFeeUsd gasCostUsd netProfitUsd profitToGasRatio

/-- A `checkGasPrice()` outcome. -/
inductive GasCheck where
  | errorChecking (msg : String)
  | tooHigh (gasPriceGwei maxGasPrice : ℚ)
  | ok (gasPrice : ℤ) (gasPriceGwei : ℚ)
deriving Repr, DecidableEq

/-- `ValidationManager.checkGasPrice()`; `provider.getFeeData()` is I/O and
is supplied as `feeData` (the wei gas price, or a thrown message caught by
the method's own try/catch). -/
def checkGasPrice (maxGasPrice : ℚ) (feeData : Except String ℤ) : GasCheck :=
  match feeData with
  | Except.error msg => GasCheck.errorChecking msg
  | Except.ok gasPrice =>
    let gasPriceGwei : ℚ := (gasPrice : ℚ) / 10 ^ 9
    if gasPriceGwei > maxGasPrice then GasCheck.tooHigh gasPriceGwei maxGasPrice
    else GasCheck.ok gasPrice gasPriceGwei

/-- A `{isValid, details}` verdict returned by one of the two sub-validator
objects (`liquidityValidator.validateOpportunity`,
`priceValidator.validateOpportunity`); `warning` is the optional
`details.warning` field consumed on the success path. -/
structure SubVerdict where
  isValid : Bool
  warning : Option String
deriving Repr, DecidableEq

/-- The I/O-backed results consumed by one
`ValidationManager.validateOpportunity` call. -/
structure VMEnv where
  feeData : Except String ℤ
  liquidityCheck : Except String SubVerdict
  priceCheck : Except String SubVerdict
deriving Repr

/-- The verdict variants of `ValidationManager.validateOpportunity`;
`validationError` carries the already-formatted
`Validation error: <message>` string of the outer catch. -/
inductive VMOutcome where
  | gasError (msg : String)
  | gasTooHigh (gasPriceGwei maxGasPrice : ℚ)
  | fromLiquidity (v : SubVerdict)
  | fromPrice (v : SubVerdict)
  | fromProfitability (p : ProfitAnalysis)
  | validationError (reason : String)
  | success (profitUsd gasCostUsd flashLoanFeeUsd netProfitUsd
      profitToGasRatio : ℚ) (warnings : List String)
deriving Repr, DecidableEq

/-- A `{isValid, details}` verdict of
`ValidationManager.validateOpportunity`. -/
structure VMVerdict where
  isValid : Bool
  outcome : VMOutcome
deriving Repr, DecidableEq

/-- The pipeline steps of `ValidationManager.validateOpportunity`, recorded
in evaluation order. -/
inductive VMStep where
  | gasCheck
  | liquidity
  | price
  | profitability
  | simulation
deriving Repr, DecidableEq

/-- `ValidationManager.validateOpportunity(opportunity)`: the sequential
short-circuit pipeline, also returning which steps were evaluated.  A
sub-validator that throws is caught by the outer try/catch and yields the
`Validation error: <message>` rejection.  `simulateArbitrage`
unconditionally succeeds in the source. -/
def validateOpportunity (cfg : VMConfig) (minProfitMultiplier : ℚ)
    (env : VMEnv) (tokenA : String) (amountIn profitUsd : ℚ) :
    VMVerdict × List VMStep :=
  match checkGasPrice (jsOr cfg.maxGasPrice 100) env.feeData with
  | GasCheck.errorChecking msg =>
    (⟨false, VMOutcome.gasError msg⟩, [VMStep.gasCheck])
  | GasCheck.tooHigh g m =>
    (⟨false, VMOutcome.gasTooHigh g m⟩, [VMStep.gasCheck])
  | GasCheck.ok gasPrice _ =>
    match env.liquidityCheck with
    | Except.error msg =>
      (⟨false, VMOutcome.validationError ("Validation error: " ++ msg)⟩,
        [VMStep.gasCheck, VMStep.liquidity])
    | Except.ok liq =>
      if liq.isValid = false then
        (⟨false, VMOutcome.fromLiquidity liq⟩, [VMStep.gasCheck, VMStep.liquidity])
      else
        match env.priceCheck with
        | Except.error msg =>
          (⟨false, VMOutcome.validationError ("Validation error: " ++ msg)⟩,
            [VMStep.gasCheck, VMStep.liquidity, VMStep.price])
        | Except.ok pr =>
          if pr.isValid = false then
            (⟨false, VMOutcome.fromPrice pr⟩,
              [VMStep.gasCheck, VMStep.liquidity, VMStep.price])
          else
            match analyzeProfitability cfg minProfitMultiplier tokenA
                amountIn profitUsd gasPrice with
            | ProfitAnalysis.valid _ f g n r _ _ =>
              let steps :=
                if cfg.simulateBeforeExecution then
                  [VMStep.gasCheck, VMStep.liquidity, VMStep.price,
                    VMStep.profitability, VMStep.simulation]
                else
                  [VMStep.gasCheck, VMStep.liquidity, VMStep.price,
                    VMStep.profitability]
              (⟨true, VMOutcome.success n g f n r
                ((pr.warning.toList) ++ (liq.warning.toList))⟩, steps)
            | p =>
              (⟨false, VMOutcome.fromProfitability p⟩,
                [VMStep.gasCheck, VMStep.liquidity, VMStep.price,
                  VMStep.profitability])

end ValidationMgr

/-! ## Enhanced validation manager (src/utils/EnhancedValidationManager.js) -/

namespace Enhanced

open LiquidityValidator (jsOr)

/-- A `{isValid, details}` verdict returned by the enhanced manager's
sub-validators (`liquidityValidator.validateLiquidity`,
`priceValidator.validatePrices`); consumed as a black box. -/
structure SubVerdict where
  isValid : Bool
  reason : Option String
deriving Repr, DecidableEq

/-- An outcome of `EnhancedValidationManager._validateGasCosts`, one
constructor per return object, carrying its numeric fields.
`gasValidationError` is the method's own catch branch
(`Gas validation error: <message>`). -/
inductive GasCostOutcome where
  | tooHigh (gasPrice maxGasPrice : ℚ)
  | notProfitable (profitUsd gasCostUsd flashLoanFeeUsd totalCostsUsd
      netProfitUsd minProfitUsd : ℚ)
  | profitable (gasPrice gasCostEth gasCostUsd flashLoanFeeEth flashLoanFeeUsd
      totalCostsUsd netProfitUsd profitMarginPercent : ℚ)
  | gasValidationError (msg : String)
deriving Repr, DecidableEq

/-- The `isValid` field of a `_validateGasCosts` result. -/
def GasCostOutcome.isValid : GasCostOutcome → Bool
  | .profitable _ _ _ _ _ _ _ _ => true
  | _ => false

/-- The I/O-backed inputs and configuration consumed by one
`EnhancedValidationManager.validateOpportunity` call. -/
structure EnhEnv where
  validationEnabled : Bool
  liquidityValidation : Except String SubVerdict
  priceValidation : Except String SubVerdict
  feeData : Except String ℤ
  ethPriceUsd : Except String ℚ
  maxGasPriceCfg : Option ℚ
  minProfitUsd : ℚ
deriving Repr

/-- `EnhancedValidationManager._validateGasCosts(opportunity)`: gas-price
ceiling check, then fixed-1000000-gas cost, Aave 0.09% flash-loan fee on
the ETH-equivalent input amount, and the net-profit floor. -/
def validateGasCosts (env : EnhEnv) (tokenA : String)
    (amountIn profitUsd : ℚ) : GasCostOutcome :=
  match env.feeData with
  | Except.error msg => GasCostOutcome.gasValidationError msg
  | Except.ok gasPrice =>
    let gasPriceGwei : ℚ := (gasPrice : ℚ) / 10 ^ 9
    let maxGasPrice := jsOr env.maxGasPriceCfg 100
    if gasPriceGwei > maxGasPrice then
      GasCostOutcome.tooHigh gasPriceGwei maxGasPrice
    else
      match env.ethPriceUsd with
      | Except.error msg => GasCostOutcome.gasValidationError msg
      | Except.ok ethPriceUsd =>
        let gasCostEth : ℚ := ((gasPrice * 1000000 : ℤ) : ℚ) / 10 ^ 18
        let gasCostUsd := gasCostEth * ethPriceUsd
        let amountInEth := amountIn *
          (if tokenA = "WETH" then 1
           else if tokenA = "WBTC" then ethPriceUsd / 20000
           else 1 / ethPriceUsd)
        let flashLoanFeeEth := amountInEth * ((9/100) / 100)
        let flashLoanFeeUsd := flashLoanFeeEth * ethPriceUsd
        let totalCostsUsd := gasCostUsd + flashLoanFeeUsd
        let netProfitUsd := profitUsd - totalCostsUsd
        if netProfitUsd ≤ env.minProfitUsd then
          GasCostOutcome.notProfitable profitUsd gasCostUsd flashLoanFeeUsd
            totalCostsUsd netProfitUsd env.minProfitUsd
        else
          GasCostOutcome.profitable gasPriceGwei gasCostEth gasCostUsd
            flashLoanFeeEth flashLoanFeeUsd totalCostsUsd netProfitUsd
            (netProfitUsd / profitUsd * 100)

/-- `details` of an `EnhancedValidationManager.validateOpportunity`
verdict; `errorCaught` carries the already-formatted
`Validation error: <message>` string of the outer catch, and
`circuitBreakerActive` carries the breaker status snapshot. -/
inductive EnhDetails where
  | disabled
  | circuitBreakerActive (status : CircuitBreaker.State)
  | fromLiquidity (v : SubVerdict)
  | fromPrice (v : SubVerdict)
  | fromGas (g : GasCostOutcome)
  | errorCaught (reason : String)
  | allPassed (netProfitUsd : ℚ)
deriving Repr, DecidableEq

/-- The `details.reason` string of an enhanced verdict, for the variants
whose template interpolates no numeric value. -/
def EnhDetails.reasonText : EnhDetails → Option String
  | .disabled => some "Validation disabled"
  | .circuitBreakerActive _ => some "Circuit breaker active"
  | .errorCaught r => some r
  | _ => none

/-- A `{isValid, details}` verdict of
`EnhancedValidationManager.validateOpportunity`. -/
structure EnhVerdict where
  isValid : Bool
  details : EnhDetails
deriving Repr, DecidableEq

/-- The checks of `EnhancedValidationManager.validateOpportunity`, recorded
in evaluation order. -/
inductive EnhStep where
  | circuitBreaker
  | liquidity
  | price
  | gas
deriving Repr, DecidableEq

/-- `EnhancedValidationManager.validateOpportunity(opportunity)`: disabled
short-circuit, circuit-breaker gate, then liquidity, price and gas-cost
validation inside the try/catch, also returning which checks were
evaluated.  The breaker is the `CircuitBreakerManager` singleton consulted
at time `now`. -/
def validateOpportunity (env : EnhEnv) (cbCfg : CircuitBreaker.Config)
    (cbState : CircuitBreaker.State) (now : Int) (tokenA : String)
    (amountIn profitUsd : ℚ) : EnhVerdict × List EnhStep :=
  if env.validationEnabled = false then
    (⟨true, EnhDetails.disabled⟩, [])
  else if (CircuitBreaker.isTripped cbCfg cbState now).1 = true then
    (⟨false, EnhDetails.circuitBreakerActive cbState⟩, [EnhStep.circuitBreaker])
  else
    match env.liquidityValidation with
    | Except.error msg =>
      (⟨false, EnhDetails.errorCaught ("Validation error: " ++ msg)⟩,
        [EnhStep.circuitBreaker, EnhStep.liquidity])
    | Except.ok liq =>
      if liq.isValid = false then
        (⟨false, EnhDetails.fromLiquidity liq⟩,
          [EnhStep.circuitBreaker, EnhStep.liquidity])
      else
        match env.priceValidation with
        | Except.error msg =>
          (⟨false, EnhDetails.errorCaught ("Validation error: " ++ msg)⟩,
            [EnhStep.circuitBreaker, EnhStep.liquidity, EnhStep.price])
        | Except.ok pr =>
          if pr.isValid = false then
            (⟨false, EnhDetails.fromPrice pr⟩,
              [EnhStep.circuitBreaker, EnhStep.liquidity, EnhStep.price])
          else
            match validateGasCosts env tokenA amountIn profitUsd with
            | GasCostOutcome.profitable _ _ _ _ _ _ n _ =>
              (⟨true, EnhDetails.allPassed n⟩,
                [EnhStep.circuitBreaker, EnhStep.liquidity, EnhStep.price,
                  EnhStep.gas])
            | g =>
              (⟨false, EnhDetails.fromGas g⟩,
                [EnhStep.circuitBreaker, EnhStep.liquidity, EnhStep.price,
                  EnhStep.gas])

/-- The concrete environment of the C1 counterexample: gas at 150 gwei
(ceiling 100) and a failing liquidity check. -/
def c1Env : EnhEnv :=
  ⟨true, Except.ok ⟨false, some "Insufficient liquidity"⟩,
    Except.ok ⟨true, none⟩, Except.ok 150000000000, Except.ok 2500, none, 10⟩

/-- The concrete environment of the C9 counterexample: the liquidity
sub-validator throws with message `boom`. -/
def c9Env : EnhEnv :=
  ⟨true, Except.error "boom", Except.ok ⟨true, none⟩, Except.ok 1000000000,
    Except.ok 2500, none, 10⟩

end Enhanced

/-! ## Theorems: circuit breaker -/

namespace CircuitBreaker

/-- C4: with the feature enabled, `isTripped()` returns true exactly when
`active = true` and the current time is strictly before `cooldownUntil`;
called with `active = true` and `now ≥ cooldownUntil` it clears `active`
(lazily, no timer) and returns false. -/
theorem isTripped_spec (cfg : Config) (st : State) (now : Int)
    (henabled : cfg.enabled = true) :
    ((isTripped cfg st now).1 = true ↔
      st.active = true ∧ now < st.cooldownUntil) ∧
    (st.active = true → st.cooldownUntil ≤ now →
      isTripped cfg st now = (false, { st with active := false })) := by
  unfold isTripped
  rw [henabled]
  constructor
  · by_cases hact : st.active = true
    · by_cases hcool : now < st.cooldownUntil
      · simp [hact, hcool]
      · simp [hact, hcool]
    · simp [hact]
  · intro hact hcool
    have hnotlt : ¬ now < st.cooldownUntil := not_lt.mpr hcool
    simp [hact, hnotlt]

lemma recordExecution_nonpos (cfg : Config) (st : State) (now p g : Int)
    (tk : String) (hen : cfg.enabled = true) (hnp : p - g ≤ 0) :
    (recordExecution cfg st now p g tk).consecutiveFailures =
      st.consecutiveFailures + 1 ∧
    (st.consecutiveFailures + 1 ≥ cfg.maxConsecutiveFailures →
      (recordExecution cfg st now p g tk).active = true ∧
      (recordExecution cfg st now p g tk).cooldownUntil =
        now + cfg.cooldownPeriodMinutes * 60 * 1000) := by
  have hen' : ¬ cfg.enabled = false := by simp [hen]
  have hng : ¬ p - g > 0 := not_lt.mpr hnp
  unfold recordExecution tripCircuitBreaker
  simp only [if_neg hen', if_neg hng]
  split_ifs <;> simp_all

lemma recordExecution_pos (cfg : Config) (st : State) (now p g : Int)
    (tk : String) (hen : cfg.enabled = true) (hp : p - g > 0) :
    (recordExecution cfg st now p g tk).consecutiveFailures = 0 ∧
    (st.active = true → (recordExecution cfg st now p g tk).active = true) := by
  have hen' : ¬ cfg.enabled = false := by simp [hen]
  unfold recordExecution tripCircuitBreaker
  simp only [if_pos hp, if_neg hen']
  split_ifs <;> simp_all

lemma recordAll_nonpos (cfg : Config) (hen : cfg.enabled = true)
    (L : List Trade) (hL : ∀ t ∈ L, t.profit - t.gasUsed ≤ 0) (st : State) :
    (recordAll cfg st L).consecutiveFailures =
      st.consecutiveFailures + L.length ∧
    (∀ tlast, L.getLast? = some tlast →
      st.consecutiveFailures + L.length ≥ cfg.maxConsecutiveFailures →
      (recordAll cfg st L).active = true ∧
      (recordAll cfg st L).cooldownUntil =
        tlast.time + cfg.cooldownPeriodMinutes * 60 * 1000) := by
  induction L generalizing st with
  | nil => simp [recordAll]
  | cons t ts ih =>
    have ht : t.profit - t.gasUsed ≤ 0 := hL t (by simp)
    have hts : ∀ u ∈ ts, u.profit - u.gasUsed ≤ 0 :=
      fun u hu => hL u (by simp [hu])
    have hrec := recordExecution_nonpos cfg st t.time t.profit t.gasUsed
      t.tokens hen ht
    have hfold : recordAll cfg st (t :: ts) =
        recordAll cfg (recordExecution cfg st t.time t.profit t.gasUsed t.tokens) ts := by
      simp [recordAll, List.foldl_cons]
    have ihst := ih hts (recordExecution cfg st t.time t.profit t.gasUsed t.tokens)
    constructor
    · rw [hfold, ihst.1, hrec.1]
      simp [List.length_cons]
      omega
    · intro tlast hlast hge
      cases ts with
      | nil =>
        have : tlast = t := by
          have h := hlast
          simp at h
          exact h.symm
        subst this
        have hge' : st.consecutiveFailures + 1 ≥ cfg.maxConsecutiveFailures := by
          simpa using hge
        rw [hfold]
        simpa [recordAll] using hrec.2 hge'
      | cons t2 ts2 =>
        have hlast' : (t2 :: ts2).getLast? = some tlast := by
          simpa [List.getLast?_cons_cons] using hlast
        have hge' :
            (recordExecution cfg st t.time t.profit t.gasUsed t.tokens).consecutiveFailures
              + (t2 :: ts2).length ≥ cfg.maxConsecutiveFailures := by
          rw [hrec.1]
          simp only [List.length_cons] at hge ⊢
          omega
        rw [hfold]
        exact (ihst.2 tlast hlast' hge')

/-- C3: from a fresh state with `maxConsecutiveFailures = N`, recording `N`
consecutive executions each with `netProfit = profit - gasUsed ≤ 0` leaves
the breaker tripped (`active = true`, `cooldownUntil` strictly after the
last recording time); a subsequent `recordExecution` with positive net
profit resets `consecutiveFailures` to 0 without clearing `active`; and
once `now ≥ cooldownUntil`, the next `isTripped()` returns false and
clears `active`. -/
theorem circuitBreaker_trip_reset_cycle (cfg : Config) (t0 : Int)
    (L : List Trade) (tlast : Trade) (tP : Int) (p g : Int) (tk : String)
    (hen : cfg.enabled = true)
    (hcool : 0 < cfg.cooldownPeriodMinutes)
    (hlen : L.length = cfg.maxConsecutiveFailures)
    (hlast : L.getLast? = some tlast)
    (hL : ∀ t ∈ L, t.profit - t.gasUsed ≤ 0)
    (hp : p - g > 0) :
    (recordAll cfg (initialState t0) L).active = true ∧
    tlast.time < (recordAll cfg (initialState t0) L).cooldownUntil ∧
    (recordExecution cfg (recordAll cfg (initialState t0) L) tP p g tk).consecutiveFailures = 0 ∧
    (recordExecution cfg (recordAll cfg (initialState t0) L) tP p g tk).active = true ∧
    (∀ now2,
      (recordExecution cfg (recordAll cfg (initialState t0) L) tP p g tk).cooldownUntil ≤ now2 →
      isTripped cfg (recordExecution cfg (recordAll cfg (initialState t0) L) tP p g tk) now2 =
        (false,
          { recordExecution cfg (recordAll cfg (initialState t0) L) tP p g tk with
            active := false })) := by
  have hfresh : (initialState t0).consecutiveFailures = 0 := rfl
  have hall := recordAll_nonpos cfg hen L hL (initialState t0)
  have hge : (initialState t0).consecutiveFailures + L.length ≥
      cfg.maxConsecutiveFailures := by
    rw [hfresh, hlen]
    omega
  have htrip := hall.2 tlast hlast hge
  have hposrec := recordExecution_pos cfg (recordAll cfg (initialState t0) L)
    tP p g tk hen hp
  refine ⟨htrip.1, ?_, hposrec.1, hposrec.2 htrip.1, ?_⟩
  · rw [htrip.2]
    have : 0 < cfg.cooldownPeriodMinutes * 60 * 1000 := by positivity
    omega
  · intro now2 hnow2
    have hact := hposrec.2 htrip.1
    have hnotlt :
        ¬ now2 < (recordExecution cfg (recordAll cfg (initialState t0) L) tP p g tk).cooldownUntil :=
      not_lt.mpr hnow2
    unfold isTripped
    rw [hen]
    simp [hact, hnotlt]

/-- Witness for C3: three $1 losses (profit 0, gas 1) trip a breaker with
`maxConsecutiveFailures = 3`; a following profitable trade resets the
failure count without clearing `active`. -/
theorem circuitBreaker_trip_reset_cycle_witness :
    (recordAll ⟨true, 3, 1000, 30⟩ (initialState 0)
      [⟨10, 0, 1, "A"⟩, ⟨20, 0, 1, "A"⟩, ⟨30, 0, 1, "A"⟩]).active = true ∧
    (Trade.time ⟨30, 0, 1, "A"⟩) <
      (recordAll ⟨true, 3, 1000, 30⟩ (initialState 0)
        [⟨10, 0, 1, "A"⟩, ⟨20, 0, 1, "A"⟩, ⟨30, 0, 1, "A"⟩]).cooldownUntil ∧
    (recordExecution ⟨true, 3, 1000, 30⟩
      (recordAll ⟨true, 3, 1000, 30⟩ (initialState 0)
        [⟨10, 0, 1, "A"⟩, ⟨20, 0, 1, "A"⟩, ⟨30, 0, 1, "A"⟩])
      40 5 1 "A").consecutiveFailures = 0 ∧
    (recordExecution ⟨true, 3, 1000, 30⟩
      (recordAll ⟨true, 3, 1000, 30⟩ (initialState 0)
        [⟨10, 0, 1, "A"⟩, ⟨20, 0, 1, "A"⟩, ⟨30, 0, 1, "A"⟩])
      40 5 1 "A").active = true ∧
    (∀ now2,
      (recordExecution ⟨true, 3, 1000, 30⟩
        (recordAll ⟨true, 3, 1000, 30⟩ (initialState 0)
          [⟨10, 0, 1, "A"⟩, ⟨20, 0, 1, "A"⟩, ⟨30, 0, 1, "A"⟩])
        40 5 1 "A").cooldownUntil ≤ now2 →
      isTripped ⟨true, 3, 1000, 30⟩
        (recordExecution ⟨true, 3, 1000, 30⟩
          (recordAll ⟨true, 3, 1000, 30⟩ (initialState 0)
            [⟨10, 0, 1, "A"⟩, ⟨20, 0, 1, "A"⟩, ⟨30, 0, 1, "A"⟩])
          40 5 1 "A") now2 =
        (false,
          { recordExecution ⟨true, 3, 1000, 30⟩
              (recordAll ⟨true, 3, 1000, 30⟩ (initialState 0)
                [⟨10, 0, 1, "A"⟩, ⟨20, 0, 1, "A"⟩, ⟨30, 0, 1, "A"⟩])
              40 5 1 "A" with
            active := false })) :=
  circuitBreaker_trip_reset_cycle ⟨true, 3, 1000, 30⟩ 0
    [⟨10, 0, 1, "A"⟩, ⟨20, 0, 1, "A"⟩, ⟨30, 0, 1, "A"⟩] ⟨30, 0, 1, "A"⟩
    40 5 1 "A" rfl (by norm_num) rfl (by rfl) (by decide) (by norm_num)

lemma recordExecution_nonpos_fields (cfg : Config) (st : State)
    (now p g : Int) (tk : String) (hen : cfg.enabled = true)
    (hnp : p - g ≤ 0)
    (hfail : st.consecutiveFailures + 1 < cfg.maxConsecutiveFailures) :
    (recordExecution cfg st now p g tk).dailyLoss = st.dailyLoss + -(p - g) ∧
    (recordExecution cfg st now p g tk).consecutiveFailures =
      st.consecutiveFailures + 1 ∧
    (recordExecution cfg st now p g tk).active =
      (if st.dailyLoss + -(p - g) > cfg.maxDailyLoss then true else st.active) ∧
    (recordExecution cfg st now p g tk).cooldownUntil =
      (if st.dailyLoss + -(p - g) > cfg.maxDailyLoss then
        now + cfg.cooldownPeriodMinutes * 60 * 1000
      else st.cooldownUntil) := by
  have hen' : ¬ cfg.enabled = false := by simp [hen]
  have hng : ¬ p - g > 0 := not_lt.mpr hnp
  have habs : (if p - g < 0 then -(p - g) else p - g) = -(p - g) := by
    split_ifs with h
    · rfl
    · omega
  unfold recordExecution tripCircuitBreaker
  simp only [if_neg hen', if_neg hng, habs]
  split_ifs <;> first
  | (simp_all; omega)
  | simp_all

/-- C5: on a fresh daily state (breaker enabled, `maxConsecutiveFailures`
greater than 2), two loss-making executions whose individual losses are at
most `maxDailyLoss` but whose combined loss exceeds it leave the breaker
untripped after the first recording and tripped after the second; the
daily-loss condition compares the accumulated loss strictly against
`maxDailyLoss` after each update. -/
theorem dailyLoss_two_step_trip (cfg : Config) (t0 t1 t2 l1 l2 : Int)
    (tk : String)
    (hen : cfg.enabled = true)
    (hmax : 2 < cfg.maxConsecutiveFailures)
    (hcool : 0 < cfg.cooldownPeriodMinutes)
    (hl1 : 0 ≤ l1) (hl2 : 0 ≤ l2)
    (hl1m : l1 ≤ cfg.maxDailyLoss)
    (hsum : l1 + l2 > cfg.maxDailyLoss) :
    (recordExecution cfg (initialState t0) t1 0 l1 tk).active = false ∧
    (recordExecution cfg (initialState t0) t1 0 l1 tk).dailyLoss = l1 ∧
    (isTripped cfg (recordExecution cfg (initialState t0) t1 0 l1 tk) t1).1 = false ∧
    (recordExecution cfg
      (recordExecution cfg (initialState t0) t1 0 l1 tk) t2 0 l2 tk).active = true ∧
    (recordExecution cfg
      (recordExecution cfg (initialState t0) t1 0 l1 tk) t2 0 l2 tk).dailyLoss = l1 + l2 ∧
    (isTripped cfg
      (recordExecution cfg
        (recordExecution cfg (initialState t0) t1 0 l1 tk) t2 0 l2 tk) t2).1 = true := by
  have h1 := recordExecution_nonpos_fields cfg (initialState t0) t1 0 l1 tk hen
    (by omega) (by simp [initialState]; omega)
  have hd1 : (initialState t0).dailyLoss + -(0 - l1) = l1 := by
    simp [initialState]
  have hnot1 : ¬ (initialState t0).dailyLoss + -(0 - l1) > cfg.maxDailyLoss := by
    rw [hd1]; omega
  have st1active : (recordExecution cfg (initialState t0) t1 0 l1 tk).active = false := by
    rw [h1.2.2.1, if_neg hnot1]; rfl
  have st1daily : (recordExecution cfg (initialState t0) t1 0 l1 tk).dailyLoss = l1 := by
    rw [h1.1, hd1]
  have st1consec :
      (recordExecution cfg (initialState t0) t1 0 l1 tk).consecutiveFailures = 1 := by
    rw [h1.2.1]; rfl
  have h2 := recordExecution_nonpos_fields cfg
    (recordExecution cfg (initialState t0) t1 0 l1 tk) t2 0 l2 tk hen
    (by omega) (by rw [st1consec]; omega)
  have hd2 : (recordExecution cfg (initialState t0) t1 0 l1 tk).dailyLoss + -(0 - l2) =
      l1 + l2 := by
    rw [st1daily]; ring
  have hyes2 :
      (recordExecution cfg (initialState t0) t1 0 l1 tk).dailyLoss + -(0 - l2) >
        cfg.maxDailyLoss := by
    rw [hd2]; omega
  have st2active :
      (recordExecution cfg
        (recordExecution cfg (initialState t0) t1 0 l1 tk) t2 0 l2 tk).active = true := by
    rw [h2.2.2.1, if_pos hyes2]
  have st2cool :
      (recordExecution cfg
        (recordExecution cfg (initialState t0) t1 0 l1 tk) t2 0 l2 tk).cooldownUntil =
        t2 + cfg.cooldownPeriodMinutes * 60 * 1000 := by
    rw [h2.2.2.2, if_pos hyes2]
  refine ⟨st1active, st1daily, ?_, st2active, by rw [h2.1, hd2], ?_⟩
  · unfold isTripped
    rw [hen]
    simp [st1active]
  · unfold isTripped
    rw [hen]
    have : t2 < (recordExecution cfg
        (recordExecution cfg (initialState t0) t1 0 l1 tk) t2 0 l2 tk).cooldownUntil := by
      rw [st2cool]
      have : 0 < cfg.cooldownPeriodMinutes * 60 * 1000 := by positivity
      omega
    simp [st2active, this]

/-- Witness for C5: maxDailyLoss 100, losses 100 then 1. -/
theorem dailyLoss_two_step_trip_witness :
    (recordExecution ⟨true, 3, 100, 30⟩ (initialState 0) 10 0 100 "A").active = false ∧
    (recordExecution ⟨true, 3, 100, 30⟩ (initialState 0) 10 0 100 "A").dailyLoss = 100 ∧
    (isTripped ⟨true, 3, 100, 30⟩
      (recordExecution ⟨true, 3, 100, 30⟩ (initialState 0) 10 0 100 "A") 10).1 = false ∧
    (recordExecution ⟨true, 3, 100, 30⟩
      (recordExecution ⟨true, 3, 100, 30⟩ (initialState 0) 10 0 100 "A")
      20 0 1 "A").active = true ∧
    (recordExecution ⟨true, 3, 100, 30⟩
      (recordExecution ⟨true, 3, 100, 30⟩ (initialState 0) 10 0 100 "A")
      20 0 1 "A").dailyLoss = 100 + 1 ∧
    (isTripped ⟨true, 3, 100, 30⟩
      (recordExecution ⟨true, 3, 100, 30⟩
        (recordExecution ⟨true, 3, 100, 30⟩ (initialState 0) 10 0 100 "A")
        20 0 1 "A") 20).1 = true :=
  dailyLoss_two_step_trip ⟨true, 3, 100, 30⟩ 0 10 20 100 1 "A" rfl
    (by norm_num) (by norm_num) (by norm_num) (by norm_num) (by norm_num)
    (by norm_num)

/-- Witness for C4 at a concrete tripped state inside its cooldown. -/
theorem isTripped_spec_witness :
    ((isTripped ⟨true, 3, 1000, 30⟩
        ⟨true, 0, 0, 0, 100, [], []⟩ 50).1 = true ↔
      (⟨true, 0, 0, 0, 100, [], []⟩ : State).active = true ∧
        (50 : Int) < (⟨true, 0, 0, 0, 100, [], []⟩ : State).cooldownUntil) ∧
    ((⟨true, 0, 0, 0, 100, [], []⟩ : State).active = true →
      (⟨true, 0, 0, 0, 100, [], []⟩ : State).cooldownUntil ≤ 50 →
      isTripped ⟨true, 3, 1000, 30⟩ ⟨true, 0, 0, 0, 100, [], []⟩ 50 =
        (false, { (⟨true, 0, 0, 0, 100, [], []⟩ : State) with active := false })) :=
  isTripped_spec ⟨true, 3, 1000, 30⟩ ⟨true, 0, 0, 0, 100, [], []⟩ 50 rfl

end CircuitBreaker

/-! ## Theorems: price plausibility -/

namespace PriceValidator

/-- C6 counterexample: the stablecoin–mainstream pair USDC/WETH is neither
both-stablecoin nor both-major, yet its threshold is 0.75%, not the claimed
default 1–1.5% class: a fourth classification affects the threshold. -/
theorem deviationThreshold_three_class_counterexample :
    getDeviationThreshold "USDC" "WETH" = 75/100 ∧
    ¬ (1 ≤ getDeviationThreshold "USDC" "WETH") ∧
    ¬ ("USDC" ∈ stablecoins ∧ "WETH" ∈ stablecoins) ∧
    ¬ ("USDC" ∈ mainstream ∧ "WETH" ∈ mainstream) := by
  have h1 : ¬ ("USDC" ∈ stablecoins ∧ "WETH" ∈ stablecoins) := by decide
  have h2 : ¬ ("USDC" ∈ mainstream ∧ "WETH" ∈ mainstream) := by decide
  have h3 : ("USDC" ∈ stablecoins ∧ "WETH" ∈ mainstream) ∨
      ("WETH" ∈ stablecoins ∧ "USDC" ∈ mainstream) := by decide
  unfold getDeviationThreshold
  rw [if_neg h1, if_neg h2, if_pos h3]
  exact ⟨rfl, by norm_num, h1, h2⟩

/-- C6 amended: `getDeviationThreshold` is determined by five mutually
exclusive classes evaluated in priority order: both-stablecoin 0.2%;
both-mainstream 0.5%; stablecoin–mainstream cross pair 0.75%;
DeFi-token-with-mainstream pair 1.25%; otherwise the default 1%. -/
theorem deviationThreshold_five_classes (a b : String) :
    (a ∈ stablecoins ∧ b ∈ stablecoins →
      getDeviationThreshold a b = 2/10) ∧
    (¬ (a ∈ stablecoins ∧ b ∈ stablecoins) →
      a ∈ mainstream ∧ b ∈ mainstream →
      getDeviationThreshold a b = 5/10) ∧
    (¬ (a ∈ stablecoins ∧ b ∈ stablecoins) →
      ¬ (a ∈ mainstream ∧ b ∈ mainstream) →
      (a ∈ stablecoins ∧ b ∈ mainstream) ∨ (b ∈ stablecoins ∧ a ∈ mainstream) →
      getDeviationThreshold a b = 75/100) ∧
    (¬ (a ∈ stablecoins ∧ b ∈ stablecoins) →
      ¬ (a ∈ mainstream ∧ b ∈ mainstream) →
      ¬ ((a ∈ stablecoins ∧ b ∈ mainstream) ∨ (b ∈ stablecoins ∧ a ∈ mainstream)) →
      (a ∈ defi ∨ b ∈ defi) ∧ (a ∈ mainstream ∨ b ∈ mainstream) →
      getDeviationThreshold a b = 125/100) ∧
    (¬ (a ∈ stablecoins ∧ b ∈ stablecoins) →
      ¬ (a ∈ mainstream ∧ b ∈ mainstream) →
      ¬ ((a ∈ stablecoins ∧ b ∈ mainstream) ∨ (b ∈ stablecoins ∧ a ∈ mainstream)) →
      ¬ ((a ∈ defi ∨ b ∈ defi) ∧ (a ∈ mainstream ∨ b ∈ mainstream)) →
      getDeviationThreshold a b = 1) := by
  unfold getDeviationThreshold
  refine ⟨fun h1 => by simp [h1], fun h1 h2 => by simp [h1, h2],
    fun h1 h2 h3 => by simp [h1, h2, h3],
    fun h1 h2 h3 h4 => by simp [h1, h2, h3, h4],
    fun h1 h2 h3 h4 => by simp [h1, h2, h3, h4]⟩

/-- Witness for C6 amended: the both-stablecoin class at USDC/DAI. -/
theorem deviationThreshold_five_classes_witness :
    ("USDC" ∈ stablecoins ∧ "DAI" ∈ stablecoins →
      getDeviationThreshold "USDC" "DAI" = 2/10) ∧
    ("USDC" ∈ stablecoins ∧ "DAI" ∈ stablecoins) ∧
    getDeviationThreshold "USDC" "DAI" = 2/10 :=
  ⟨(deviationThreshold_five_classes "USDC" "DAI").1, by decide,
    (deviationThreshold_five_classes "USDC" "DAI").1 (by decide)⟩

/-- C7: when the spread exceeds the tiered threshold, the validator rejects
exactly when one of the secondary (rolling spreads), tertiary (market
reference) or quaternary (attack pattern) checks fails; if all three pass,
the verdict is valid and carries a non-null warning; a spread at or below
the threshold is valid with no warning. -/
theorem priceDiff_secondary_gates (rsc mpc apc : SubCheck)
    (tokenA tokenB : String) (spread : ℚ) :
    (spread > getDeviationThreshold tokenA tokenB →
      (((validatePriceDifference rsc mpc apc tokenA tokenB spread).isValid = false) ↔
        (rsc.isValid = false ∨ mpc.isValid = false ∨ apc.isValid = false)) ∧
      (rsc.isValid = true → mpc.isValid = true → apc.isValid = true →
        validatePriceDifference rsc mpc apc tokenA tokenB spread =
          ⟨true, PDReason.highSpreadValidated spread,
            some (PDWarning.exceedsThreshold (getDeviationThreshold tokenA tokenB))⟩)) ∧
    (spread ≤ getDeviationThreshold tokenA tokenB →
      validatePriceDifference rsc mpc apc tokenA tokenB spread =
        ⟨true, PDReason.withinThreshold spread (getDeviationThreshold tokenA tokenB),
          none⟩) := by
  unfold validatePriceDifference
  constructor
  · intro hgt
    rw [if_pos hgt]
    constructor
    · cases hr : rsc.isValid <;> cases hm : mpc.isValid <;>
        cases ha : apc.isValid <;> simp [hr, hm, ha]
    · intro hr hm ha
      simp [hr, hm, ha]
  · intro hle
    rw [if_neg (not_lt.mpr hle)]

/-- Witness for C7: a 2% WETH/WBTC spread (threshold 0.5%) passing all
three secondary checks yields a valid verdict carrying a warning. -/
theorem priceDiff_secondary_gates_witness :
    ((2 : ℚ) > getDeviationThreshold "WETH" "WBTC") ∧
    validatePriceDifference ⟨true, "ok"⟩ ⟨true, "ok"⟩ ⟨true, "ok"⟩
        "WETH" "WBTC" 2 =
      ⟨true, PDReason.highSpreadValidated 2,
        some (PDWarning.exceedsThreshold (getDeviationThreshold "WETH" "WBTC"))⟩ :=
  have hgt : (2 : ℚ) > getDeviationThreshold "WETH" "WBTC" := by
    have hs : ¬ ("WETH" ∈ stablecoins ∧ "WBTC" ∈ stablecoins) := by decide
    have hm : "WETH" ∈ mainstream ∧ "WBTC" ∈ mainstream := by decide
    unfold getDeviationThreshold
    rw [if_neg hs, if_pos hm]
    norm_num
  ⟨hgt,
    ((priceDiff_secondary_gates ⟨true, "ok"⟩ ⟨true, "ok"⟩ ⟨true, "ok"⟩
      "WETH" "WBTC" 2).1 hgt).2 rfl rfl rfl⟩

end PriceValidator

/-! ## Theorems: liquidity depth gate -/

namespace LiquidityValidator

/-- C8 counterexample: for the fixed pool with reserves 1000000/1000000,
the integer-floored `priceImpact` is 100% at `amountIn = 1` but only 0.4%
at the larger `amountIn = 1000`, so `priceImpact` is not weakly
non-decreasing in `amountIn`; moreover the depth check is invalid at
`amountIn = 1` (price impact) yet valid again at the larger
`amountIn = 1000`, so invalidity is not upward-closed. -/
theorem depthGate_not_monotone_counterexample :
    priceImpactPct 1 1000000 1000000 = 100 ∧
    priceImpactPct 1000 1000000 1000000 = 2/5 ∧
    (1 : ℕ) < 1000 ∧
    ¬ (priceImpactPct 1 1000000 1000000 ≤ priceImpactPct 1000 1000000 1000000) ∧
    checkDexLiquidity 1000000 1000000 1 emptyOptions none =
      DexCheck.invalidImpact 100 ∧
    checkDexLiquidity 1000000 1000000 1000 emptyOptions none =
      DexCheck.valid 996 1000000 1000000 (1/10) (2/5) ∧
    (checkDexLiquidity 1000000 1000000 1 emptyOptions none).isValid = false ∧
    (checkDexLiquidity 1000000 1000000 1000 emptyOptions none).isValid = true := by
  have h1 : priceImpactPct 1 1000000 1000000 = 100 := by
    norm_num [priceImpactPct, spotPriceScaled, executionPriceScaled, expectedOutputV2]
  have h2 : priceImpactPct 1000 1000000 1000000 = 2/5 := by
    norm_num [priceImpactPct, spotPriceScaled, executionPriceScaled, expectedOutputV2]
  have h3 : checkDexLiquidity 1000000 1000000 1 emptyOptions none =
      DexCheck.invalidImpact 100 := by
    norm_num [checkDexLiquidity, reserveRatioPct, jsOr, emptyOptions, h1,
      expectedOutputV2, spotPriceScaled]
  have h4 : checkDexLiquidity 1000000 1000000 1000 emptyOptions none =
      DexCheck.valid 996 1000000 1000000 (1/10) (2/5) := by
    norm_num [checkDexLiquidity, reserveRatioPct, jsOr, emptyOptions, h2,
      expectedOutputV2, spotPriceScaled]
  refine ⟨h1, h2, by norm_num, ?_, h3, h4, ?_, ?_⟩
  · rw [h1, h2]; norm_num
  · rw [h3]; rfl
  · rw [h4]; rfl

/-- C8 amended: for a fixed pool, `reserveRatio` is monotonically
non-decreasing in `amountIn`, and beyond `amountIn = reserveIn` the depth
check is permanently invalid through the reserve-ratio gate; but (see the
counterexample) the floored `priceImpact` is not weakly monotone and an
invalid verdict at a small amount can be followed by a valid verdict at a
larger amount. -/
theorem depthGate_monotonicity_amended (reserveIn reserveOut : ℕ)
    (hrin : 0 < reserveIn) :
    (∀ a a' : ℕ, a ≤ a' →
      reserveRatioPct a reserveIn ≤ reserveRatioPct a' reserveIn) ∧
    (∀ a : ℕ, reserveIn ≤ a →
      checkDexLiquidity reserveIn reserveOut a emptyOptions none =
        DexCheck.invalidRatio (reserveRatioPct a reserveIn) ∧
      (checkDexLiquidity reserveIn reserveOut a emptyOptions none).isValid = false) := by
  have hmono : ∀ a a' : ℕ, a ≤ a' →
      reserveRatioPct a reserveIn ≤ reserveRatioPct a' reserveIn := by
    intro a a' hle
    unfold reserveRatioPct
    have hdiv : a * 10000 / reserveIn ≤ a' * 10000 / reserveIn :=
      Nat.div_le_div_right (Nat.mul_le_mul_right 10000 hle)
    have : ((a * 10000 / reserveIn : ℕ) : ℚ) ≤ ((a' * 10000 / reserveIn : ℕ) : ℚ) :=
      Nat.cast_le.mpr hdiv
    linarith
  refine ⟨hmono, ?_⟩
  intro a ha
  have hbig : (10000 : ℕ) ≤ a * 10000 / reserveIn := by
    have h1 : reserveIn * 10000 / reserveIn ≤ a * 10000 / reserveIn :=
      Nat.div_le_div_right (Nat.mul_le_mul_right 10000 ha)
    rwa [Nat.mul_div_cancel_left 10000 hrin] at h1
  have hgt : reserveRatioPct a reserveIn > 5 := by
    unfold reserveRatioPct
    have : (10000 : ℚ) ≤ ((a * 10000 / reserveIn : ℕ) : ℚ) := by
      exact_mod_cast hbig
    linarith
  have hcond : reserveRatioPct a reserveIn > jsOr emptyOptions.maxReserveRatio 5 := by
    simpa [jsOr, emptyOptions] using hgt
  constructor
  · unfold checkDexLiquidity
    rw [if_pos hcond]
  · unfold checkDexLiquidity
    rw [if_pos hcond]
    rfl

/-- Witness for C8 amended at the 1000000/1000000 pool. -/
theorem depthGate_monotonicity_amended_witness :
    (reserveRatioPct 1 1000000 ≤ reserveRatioPct 1000 1000000) ∧
    checkDexLiquidity 1000000 1000000 2000000 emptyOptions none =
      DexCheck.invalidRatio (reserveRatioPct 2000000 1000000) ∧
    (checkDexLiquidity 1000000 1000000 2000000 emptyOptions none).isValid = false :=
  ⟨(depthGate_monotonicity_amended 1000000 1000000 (by norm_num)).1 1 1000
      (by norm_num),
    (depthGate_monotonicity_amended 1000000 1000000 (by norm_num)).2 2000000
      (by norm_num)⟩

end LiquidityValidator

/-! ## Theorems: cost & profitability analyzer -/

namespace ValidationMgr

open LiquidityValidator (jsOr)

lemma profitToGasRatio_eq_div (n g : ℚ) (hg : 0 ≤ g) :
    profitToGasRatioOf n g = n / g := by
  unfold profitToGasRatioOf
  by_cases h : g > 0
  · rw [if_pos h]
  · rw [if_neg h]
    have : g = 0 := le_antisymm (not_lt.mp h) hg
    rw [this, div_zero]

lemma gasCostUsd_nonneg (gasPrice : ℤ) (hgas : 0 ≤ gasPrice) :
    0 ≤ gasCostUsdOf gasPrice 2500 := by
  unfold gasCostUsdOf
  have h1 : (0 : ℚ) ≤ ((gasPrice * 500000 : ℤ) : ℚ) := by
    exact_mod_cast mul_nonneg hgas (by norm_num)
  positivity

/-- C2: when the profitability analysis is reached (token info and prices
resolve) with a non-negative gas price, `analyzeProfitability` is valid
exactly when both gates hold, `netProfitUsd > minProfitUsd` and
`netProfitUsd / gasCostUsd ≥ minProfitMultiplier`; failing the absolute
gate or (passing it but failing) the ratio gate yields a rejection whose
details carry the numeric breakdown (net profit, gas cost, ratio) and
whose reason carries the violated threshold. -/
theorem analyzeProfitability_both_gates (cfg : VMConfig) (mult : ℚ)
    (tokenA : String) (amountIn profitUsd : ℚ) (gasPrice : ℤ)
    (tokenInfo : TokenInfo) (tokenPriceUsd : ℚ)
    (hfound : cfg.tokens.find? (fun t => t.symbol == tokenA) = some tokenInfo)
    (hprice : getTokenPriceUsd tokenA = some tokenPriceUsd)
    (hgas : 0 ≤ gasPrice) :
    ((analyzeProfitability cfg mult tokenA amountIn profitUsd gasPrice).isValid = true ↔
      (netProfitUsdOf cfg tokenInfo amountIn profitUsd gasPrice tokenPriceUsd 2500 >
          jsOr cfg.minProfitUsd 10 ∧
        netProfitUsdOf cfg tokenInfo amountIn profitUsd gasPrice tokenPriceUsd 2500 /
            gasCostUsdOf gasPrice 2500 ≥ mult)) ∧
    (netProfitUsdOf cfg tokenInfo amountIn profitUsd gasPrice tokenPriceUsd 2500 ≤
        jsOr cfg.minProfitUsd 10 →
      analyzeProfitability cfg mult tokenA amountIn profitUsd gasPrice =
        ProfitAnalysis.rejected
          (ProfitReason.netProfitBelowMinimum
            (netProfitUsdOf cfg tokenInfo amountIn profitUsd gasPrice tokenPriceUsd 2500)
            (jsOr cfg.minProfitUsd 10))
          profitUsd
          (flashLoanFeeUsdOf cfg tokenInfo amountIn tokenPriceUsd)
          (gasCostUsdOf gasPrice 2500)
          (netProfitUsdOf cfg tokenInfo amountIn profitUsd gasPrice tokenPriceUsd 2500)
          (profitToGasRatioOf
            (netProfitUsdOf cfg tokenInfo amountIn profitUsd gasPrice tokenPriceUsd 2500)
            (gasCostUsdOf gasPrice 2500))) ∧
    (netProfitUsdOf cfg tokenInfo amountIn profitUsd gasPrice tokenPriceUsd 2500 >
        jsOr cfg.minProfitUsd 10 →
      netProfitUsdOf cfg tokenInfo amountIn profitUsd gasPrice tokenPriceUsd 2500 /
          gasCostUsdOf gasPrice 2500 < mult →
      analyzeProfitability cfg mult tokenA amountIn profitUsd gasPrice =
        ProfitAnalysis.rejected
          (ProfitReason.ratioBelowMultiplier
            (profitToGasRatioOf
              (netProfitUsdOf cfg tokenInfo amountIn profitUsd gasPrice tokenPriceUsd 2500)
              (gasCostUsdOf gasPrice 2500))
            mult)
          profitUsd
          (flashLoanFeeUsdOf cfg tokenInfo amountIn tokenPriceUsd)
          (gasCostUsdOf gasPrice 2500)
          (netProfitUsdOf cfg tokenInfo amountIn profitUsd gasPrice tokenPriceUsd 2500)
          (profitToGasRatioOf
            (netProfitUsdOf cfg tokenInfo amountIn profitUsd gasPrice tokenPriceUsd 2500)
            (gasCostUsdOf gasPrice 2500))) := by
  have hratio := profitToGasRatio_eq_div
    (netProfitUsdOf cfg tokenInfo amountIn profitUsd gasPrice tokenPriceUsd 2500)
    (gasCostUsdOf gasPrice 2500) (gasCostUsd_nonneg gasPrice hgas)
  have hbody : analyzeProfitability cfg mult tokenA amountIn profitUsd gasPrice =
      (if netProfitUsdOf cfg tokenInfo amountIn profitUsd gasPrice tokenPriceUsd 2500 ≤
          jsOr cfg.minProfitUsd 10 then
        ProfitAnalysis.rejected
          (ProfitReason.netProfitBelowMinimum
            (netProfitUsdOf cfg tokenInfo amountIn profitUsd gasPrice tokenPriceUsd 2500)
            (jsOr cfg.minProfitUsd 10))
          profitUsd
          (flashLoanFeeUsdOf cfg tokenInfo amountIn tokenPriceUsd)
          (gasCostUsdOf gasPrice 2500)
          (netProfitUsdOf cfg tokenInfo amountIn profitUsd gasPrice tokenPriceUsd 2500)
          (profitToGasRatioOf
            (netProfitUsdOf cfg tokenInfo amountIn profitUsd gasPrice tokenPriceUsd 2500)
            (gasCostUsdOf gasPrice 2500))
      else if profitToGasRatioOf
          (netProfitUsdOf cfg tokenInfo amountIn profitUsd gasPrice tokenPriceUsd 2500)
          (gasCostUsdOf gasPrice 2500) ≥ mult then
        ProfitAnalysis.valid profitUsd
          (flashLoanFeeUsdOf cfg tokenInfo amountIn tokenPriceUsd)
          (gasCostUsdOf gasPrice 2500)
          (netProfitUsdOf cfg tokenInfo amountIn profitUsd gasPrice tokenPriceUsd 2500)
          (profitToGasRatioOf
            (netProfitUsdOf cfg tokenInfo amountIn profitUsd gasPrice tokenPriceUsd 2500)
            (gasCostUsdOf gasPrice 2500))
          2500 tokenPriceUsd
      else
        ProfitAnalysis.rejected
          (ProfitReason.ratioBelowMultiplier
            (profitToGasRatioOf
              (netProfitUsdOf cfg tokenInfo amountIn profitUsd gasPrice tokenPriceUsd 2500)
              (gasCostUsdOf gasPrice 2500))
            mult)
          profitUsd
          (flashLoanFeeUsdOf cfg tokenInfo amountIn tokenPriceUsd)
          (gasCostUsdOf gasPrice 2500)
          (netProfitUsdOf cfg tokenInfo amountIn profitUsd gasPrice tokenPriceUsd 2500)
          (profitToGasRatioOf
            (netProfitUsdOf cfg tokenInfo amountIn profitUsd gasPrice tokenPriceUsd 2500)
            (gasCostUsdOf gasPrice 2500))) := by
    unfold analyzeProfitability
    rw [hfound, hprice]
    simp only [getEthPriceUsd]
    rfl
  rw [hbody]
  by_cases h1 : netProfitUsdOf cfg tokenInfo amountIn profitUsd gasPrice tokenPriceUsd 2500 ≤
      jsOr cfg.minProfitUsd 10
  · rw [if_pos h1]
    refine ⟨?_, fun _ => rfl, fun hgt _ => absurd h1 (not_le.mpr hgt)⟩
    simp [ProfitAnalysis.isValid]
    intro hgt
    exact absurd h1 (not_le.mpr hgt)
  · rw [if_neg h1]
    by_cases h2 : profitToGasRatioOf
        (netProfitUsdOf cfg tokenInfo amountIn profitUsd gasPrice tokenPriceUsd 2500)
        (gasCostUsdOf gasPrice 2500) ≥ mult
    · rw [if_pos h2]
      rw [hratio] at h2
      refine ⟨?_, fun hle => absurd hle h1, fun _ hlt => absurd hlt (not_lt.mpr h2)⟩
      simp [ProfitAnalysis.isValid]
      exact ⟨not_le.mp h1, h2⟩
    · rw [if_neg h2]
      rw [hratio] at h2
      refine ⟨?_, fun hle => absurd hle h1, fun _ _ => rfl⟩
      simp only [ProfitAnalysis.isValid]
      constructor
      · intro h
        exact absurd h (by simp)
      · rintro ⟨_, hge⟩
        exact (h2 hge).elim

/-- Witness for C2 at a concrete opportunity (1 WETH, $100 gross profit,
10 gwei gas). -/
theorem analyzeProfitability_both_gates_witness :
    (analyzeProfitability ⟨[⟨"WETH", 18⟩], none, none, none, false⟩ 2 "WETH"
        1 100 10000000000).isValid = true ↔
      (netProfitUsdOf ⟨[⟨"WETH", 18⟩], none, none, none, false⟩ ⟨"WETH", 18⟩
          1 100 10000000000 2500 2500 >
        jsOr (VMConfig.minProfitUsd ⟨[⟨"WETH", 18⟩], none, none, none, false⟩) 10 ∧
       netProfitUsdOf ⟨[⟨"WETH", 18⟩], none, none, none, false⟩ ⟨"WETH", 18⟩
          1 100 10000000000 2500 2500 /
          gasCostUsdOf 10000000000 2500 ≥ 2) :=
  (analyzeProfitability_both_gates ⟨[⟨"WETH", 18⟩], none, none, none, false⟩ 2
    "WETH" 1 100 10000000000 ⟨"WETH", 18⟩ 2500 rfl rfl (by norm_num)).1

end ValidationMgr

/-! ## Theorems: orchestrators -/

namespace Enhanced

/-- C10: with validation disabled, `validateOpportunity` returns a valid
verdict with reason `Validation disabled` and evaluates no check at all —
not even the circuit-breaker gate, whatever the breaker state. -/
theorem validationDisabled_bypasses_all (env : EnhEnv)
    (cbCfg : CircuitBreaker.Config) (cbState : CircuitBreaker.State)
    (now : Int) (tokenA : String) (amountIn profitUsd : ℚ)
    (hdis : env.validationEnabled = false) :
    validateOpportunity env cbCfg cbState now tokenA amountIn profitUsd =
      (⟨true, EnhDetails.disabled⟩, []) ∧
    EnhDetails.reasonText EnhDetails.disabled = some "Validation disabled" := by
  constructor
  · unfold validateOpportunity
    rw [if_pos hdis]
  · rfl

/-- Witness for C10: validation disabled while the breaker is tripped
(active, within cooldown) still yields the disabled pass-through. -/
theorem validationDisabled_bypasses_all_witness :
    (CircuitBreaker.isTripped ⟨true, 3, 1000, 30⟩
      ⟨true, 3, 0, 0, 1000, [], []⟩ 0).1 = true ∧
    validateOpportunity
        ⟨false, Except.ok ⟨true, none⟩, Except.ok ⟨true, none⟩,
          Except.ok 1000000000, Except.ok 2500, none, 10⟩
        ⟨true, 3, 1000, 30⟩ ⟨true, 3, 0, 0, 1000, [], []⟩ 0 "WETH" 1 100 =
      (⟨true, EnhDetails.disabled⟩, []) ∧
    EnhDetails.reasonText EnhDetails.disabled = some "Validation disabled" :=
  ⟨by decide,
    (validationDisabled_bypasses_all
      ⟨false, Except.ok ⟨true, none⟩, Except.ok ⟨true, none⟩,
        Except.ok 1000000000, Except.ok 2500, none, 10⟩
      ⟨true, 3, 1000, 30⟩ ⟨true, 3, 0, 0, 1000, [], []⟩ 0 "WETH" 1 100 rfl).1,
    (validationDisabled_bypasses_all
      ⟨false, Except.ok ⟨true, none⟩, Except.ok ⟨true, none⟩,
        Except.ok 1000000000, Except.ok 2500, none, 10⟩
      ⟨true, 3, 1000, 30⟩ ⟨true, 3, 0, 0, 1000, [], []⟩ 0 "WETH" 1 100 rfl).2⟩

/-- C1 counterexample: in `EnhancedValidationManager.validateOpportunity`
the gas-price gate does not run immediately after the circuit-breaker
gate: with the gas price above the ceiling (150 > 100 gwei), the liquidity
check is still evaluated and a failing liquidity check produces the
verdict, whose reason is the liquidity rejection, not the gas price. -/
theorem gasGate_not_first_counterexample :
    ((150000000000 : ℚ) / 10 ^ 9 > LiquidityValidator.jsOr c1Env.maxGasPriceCfg 100) ∧
    validateOpportunity c1Env ⟨true, 3, 1000, 30⟩ (CircuitBreaker.initialState 0)
        0 "WETH" 1 100 =
      (⟨false, EnhDetails.fromLiquidity ⟨false, some "Insufficient liquidity"⟩⟩,
        [EnhStep.circuitBreaker, EnhStep.liquidity]) ∧
    EnhStep.liquidity ∈
      (validateOpportunity c1Env ⟨true, 3, 1000, 30⟩ (CircuitBreaker.initialState 0)
        0 "WETH" 1 100).2 := by
  refine ⟨?_, rfl, ?_⟩
  · norm_num [LiquidityValidator.jsOr, c1Env]
  · rw [show (validateOpportunity c1Env ⟨true, 3, 1000, 30⟩
        (CircuitBreaker.initialState 0) 0 "WETH" 1 100).2 =
      [EnhStep.circuitBreaker, EnhStep.liquidity] from rfl]
    simp

/-- C1 amended: the gas-price ceiling check of the enhanced orchestrator
runs inside the gas-cost step, after the circuit-breaker, liquidity and
price checks (so those are evaluated even at excessive gas prices, and
the high-gas rejection only surfaces once they pass), while the plain
`ValidationManager.validateOpportunity` — which has no circuit-breaker
gate — runs the gas gate first and rejects citing the gas price without
evaluating the liquidity or price checks. -/
theorem gasGate_order_amended :
    (∀ (env : EnhEnv) (cbCfg : CircuitBreaker.Config)
      (cbState : CircuitBreaker.State) (now : Int) (tokenA : String)
      (amountIn profitUsd : ℚ) (liq pr : SubVerdict) (w : ℤ),
      env.validationEnabled = true →
      (CircuitBreaker.isTripped cbCfg cbState now).1 = false →
      env.liquidityValidation = Except.ok liq → liq.isValid = true →
      env.priceValidation = Except.ok pr → pr.isValid = true →
      env.feeData = Except.ok w →
      (w : ℚ) / 10 ^ 9 > LiquidityValidator.jsOr env.maxGasPriceCfg 100 →
      validateOpportunity env cbCfg cbState now tokenA amountIn profitUsd =
        (⟨false, EnhDetails.fromGas
            (GasCostOutcome.tooHigh ((w : ℚ) / 10 ^ 9)
              (LiquidityValidator.jsOr env.maxGasPriceCfg 100))⟩,
          [EnhStep.circuitBreaker, EnhStep.liquidity, EnhStep.price,
            EnhStep.gas])) ∧
    (∀ (cfg : ValidationMgr.VMConfig) (mult : ℚ) (envV : ValidationMgr.VMEnv)
      (tokenA : String) (amountIn profitUsd : ℚ) (w : ℤ),
      envV.feeData = Except.ok w →
      (w : ℚ) / 10 ^ 9 > LiquidityValidator.jsOr cfg.maxGasPrice 100 →
      ValidationMgr.validateOpportunity cfg mult envV tokenA amountIn profitUsd =
        (⟨false, ValidationMgr.VMOutcome.gasTooHigh ((w : ℚ) / 10 ^ 9)
            (LiquidityValidator.jsOr cfg.maxGasPrice 100)⟩,
          [ValidationMgr.VMStep.gasCheck])) := by
  constructor
  · intro env cbCfg cbState now tokenA amountIn profitUsd liq pr w
      hen htrip hliq hliqv hpr hprv hfee hgt
    have hgas : validateGasCosts env tokenA amountIn profitUsd =
        GasCostOutcome.tooHigh ((w : ℚ) / 10 ^ 9)
          (LiquidityValidator.jsOr env.maxGasPriceCfg 100) := by
      unfold validateGasCosts
      rw [hfee]
      simp only [if_pos hgt]
    unfold validateOpportunity
    rw [if_neg (by simp [hen]), if_neg (by simp [htrip]), hliq]
    simp only [if_neg (by simp [hliqv] : ¬ liq.isValid = false)]
    rw [hpr]
    simp only [if_neg (by simp [hprv] : ¬ pr.isValid = false)]
    rw [hgas]
  · intro cfg mult envV tokenA amountIn profitUsd w hfee hgt
    unfold ValidationMgr.validateOpportunity ValidationMgr.checkGasPrice
    rw [hfee]
    simp only [if_pos hgt]

/-- Witness for C1 amended: both orchestrators at 150 gwei against the
default 100 gwei ceiling. -/
theorem gasGate_order_amended_witness :
    validateOpportunity
        ⟨true, Except.ok ⟨true, none⟩, Except.ok ⟨true, none⟩,
          Except.ok 150000000000, Except.ok 2500, none, 10⟩
        ⟨true, 3, 1000, 30⟩ (CircuitBreaker.initialState 0) 0 "WETH" 1 100 =
      (⟨false, EnhDetails.fromGas
          (GasCostOutcome.tooHigh ((150000000000 : ℚ) / 10 ^ 9)
            (LiquidityValidator.jsOr none 100))⟩,
        [EnhStep.circuitBreaker, EnhStep.liquidity, EnhStep.price,
          EnhStep.gas]) ∧
    ValidationMgr.validateOpportunity ⟨[], none, none, none, false⟩ 2
        ⟨Except.ok 150000000000, Except.ok ⟨true, none⟩, Except.ok ⟨true, none⟩⟩
        "WETH" 1 100 =
      (⟨false, ValidationMgr.VMOutcome.gasTooHigh ((150000000000 : ℚ) / 10 ^ 9)
          (LiquidityValidator.jsOr none 100)⟩,
        [ValidationMgr.VMStep.gasCheck]) :=
  ⟨gasGate_order_amended.1
      ⟨true, Except.ok ⟨true, none⟩, Except.ok ⟨true, none⟩,
        Except.ok 150000000000, Except.ok 2500, none, 10⟩
      ⟨true, 3, 1000, 30⟩ (CircuitBreaker.initialState 0) 0 "WETH" 1 100
      ⟨true, none⟩ ⟨true, none⟩ 150000000000 rfl rfl rfl rfl rfl rfl rfl
      (by norm_num [LiquidityValidator.jsOr]),
    gasGate_order_amended.2 ⟨[], none, none, none, false⟩ 2
      ⟨Except.ok 150000000000, Except.ok ⟨true, none⟩, Except.ok ⟨true, none⟩⟩
      "WETH" 1 100 150000000000 rfl
      (by norm_num [LiquidityValidator.jsOr])⟩

end Enhanced

namespace Enhanced

/-- C9 counterexample: a sub-validator exception is converted to a
rejection, but its reason string is `Validation error: <message>` with a
capital V — not the claimed `validation error: <message>`. -/
theorem validationError_lowercase_counterexample :
    validateOpportunity c9Env ⟨true, 3, 1000, 30⟩ (CircuitBreaker.initialState 0)
        0 "WETH" 1 100 =
      (⟨false, EnhDetails.errorCaught ("Validation error: " ++ "boom")⟩,
        [EnhStep.circuitBreaker, EnhStep.liquidity]) ∧
    EnhDetails.reasonText
        (validateOpportunity c9Env ⟨true, 3, 1000, 30⟩
          (CircuitBreaker.initialState 0) 0 "WETH" 1 100).1.details =
      some ("Validation error: " ++ "boom") ∧
    ("Validation error: " ++ "boom") ≠ ("validation error: " ++ "boom") := by
  refine ⟨rfl, rfl, by decide⟩

/-- C9 amended: an exception thrown by the liquidity or price
sub-validator never propagates out of either orchestrator's
`validateOpportunity`: it is caught and converted into an
`{isValid: false}` verdict whose reason is the string
`Validation error: ` (capital V) followed by the exception message. -/
theorem validationError_conversion_amended :
    (∀ (env : EnhEnv) (cbCfg : CircuitBreaker.Config)
      (cbState : CircuitBreaker.State) (now : Int) (tokenA : String)
      (amountIn profitUsd : ℚ) (msg : String),
      env.validationEnabled = true →
      (CircuitBreaker.isTripped cbCfg cbState now).1 = false →
      env.liquidityValidation = Except.error msg →
      validateOpportunity env cbCfg cbState now tokenA amountIn profitUsd =
        (⟨false, EnhDetails.errorCaught ("Validation error: " ++ msg)⟩,
          [EnhStep.circuitBreaker, EnhStep.liquidity])) ∧
    (∀ (env : EnhEnv) (cbCfg : CircuitBreaker.Config)
      (cbState : CircuitBreaker.State) (now : Int) (tokenA : String)
      (amountIn profitUsd : ℚ) (liq : SubVerdict) (msg : String),
      env.validationEnabled = true →
      (CircuitBreaker.isTripped cbCfg cbState now).1 = false →
      env.liquidityValidation = Except.ok liq → liq.isValid = true →
      env.priceValidation = Except.error msg →
      validateOpportunity env cbCfg cbState now tokenA amountIn profitUsd =
        (⟨false, EnhDetails.errorCaught ("Validation error: " ++ msg)⟩,
          [EnhStep.circuitBreaker, EnhStep.liquidity, EnhStep.price])) ∧
    (∀ (cfg : ValidationMgr.VMConfig) (mult : ℚ) (envV : ValidationMgr.VMEnv)
      (tokenA : String) (amountIn profitUsd : ℚ) (w : ℤ) (msg : String),
      envV.feeData = Except.ok w →
      ¬ ((w : ℚ) / 10 ^ 9 > LiquidityValidator.jsOr cfg.maxGasPrice 100) →
      envV.liquidityCheck = Except.error msg →
      ValidationMgr.validateOpportunity cfg mult envV tokenA amountIn profitUsd =
        (⟨false, ValidationMgr.VMOutcome.validationError
            ("Validation error: " ++ msg)⟩,
          [ValidationMgr.VMStep.gasCheck, ValidationMgr.VMStep.liquidity])) ∧
    (∀ (cfg : ValidationMgr.VMConfig) (mult : ℚ) (envV : ValidationMgr.VMEnv)
      (tokenA : String) (amountIn profitUsd : ℚ) (w : ℤ)
      (liq : ValidationMgr.SubVerdict) (msg : String),
      envV.feeData = Except.ok w →
      ¬ ((w : ℚ) / 10 ^ 9 > LiquidityValidator.jsOr cfg.maxGasPrice 100) →
      envV.liquidityCheck = Except.ok liq → liq.isValid = true →
      envV.priceCheck = Except.error msg →
      ValidationMgr.validateOpportunity cfg mult envV tokenA amountIn profitUsd =
        (⟨false, ValidationMgr.VMOutcome.validationError
            ("Validation error: " ++ msg)⟩,
          [ValidationMgr.VMStep.gasCheck, ValidationMgr.VMStep.liquidity,
            ValidationMgr.VMStep.price])) := by
  refine ⟨?_, ?_, ?_, ?_⟩
  · intro env cbCfg cbState now tokenA amountIn profitUsd msg hen htrip hliq
    unfold validateOpportunity
    rw [if_neg (by simp [hen]), if_neg (by simp [htrip]), hliq]
  · intro env cbCfg cbState now tokenA amountIn profitUsd liq msg hen htrip
      hliq hliqv hpr
    unfold validateOpportunity
    rw [if_neg (by simp [hen]), if_neg (by simp [htrip]), hliq]
    simp only [if_neg (by simp [hliqv] : ¬ liq.isValid = false)]
    rw [hpr]
  · intro cfg mult envV tokenA amountIn profitUsd w msg hfee hok hliq
    unfold ValidationMgr.validateOpportunity ValidationMgr.checkGasPrice
    rw [hfee]
    simp only [if_neg hok]
    rw [hliq]
  · intro cfg mult envV tokenA amountIn profitUsd w liq msg hfee hok hliq
      hliqv hpr
    unfold ValidationMgr.validateOpportunity ValidationMgr.checkGasPrice
    rw [hfee]
    simp only [if_neg hok]
    rw [hliq]
    simp only [if_neg (by simp [hliqv] : ¬ liq.isValid = false)]
    rw [hpr]

/-- Witness for C9 amended: a throwing price sub-validator in the enhanced
orchestrator is converted to the capital-V rejection. -/
theorem validationError_conversion_amended_witness :
    validateOpportunity
        ⟨true, Except.ok ⟨true, none⟩, Except.error "quote revert",
          Except.ok 1000000000, Except.ok 2500, none, 10⟩
        ⟨true, 3, 1000, 30⟩ (CircuitBreaker.initialState 0) 0 "WETH" 1 100 =
      (⟨false, EnhDetails.errorCaught ("Validation error: " ++ "quote revert")⟩,
        [EnhStep.circuitBreaker, EnhStep.liquidity, EnhStep.price]) :=
  validationError_conversion_amended.2.1
    ⟨true, Except.ok ⟨true, none⟩, Except.error "quote revert",
      Except.ok 1000000000, Except.ok 2500, none, 10⟩
    ⟨true, 3, 1000, 30⟩ (CircuitBreaker.initialState 0) 0 "WETH" 1 100
    ⟨true, none⟩ "quote revert" rfl rfl rfl rfl rfl

end Enhanced
